import Mathlib

/-!
Shallow embedding of the tracking coordinator declared in
src/PlusLib/src/Tracking/vtkTracker.h (class vtkTracker).

Only the header is in src/; the implementation file vtkTracker.cxx is not.
Definitions whose bodies appear inline in the header are translated from
the header directly.  Definitions whose bodies live in the missing
vtkTracker.cxx are modelled from the spec (spec.md) and carry a doc
comment starting with "Modelled from the spec:".

Timestamps (C double) are modelled as rationals, which is exact for the
only operation performed on them here (comparison / max).  Machine ints
are modelled as Int, unsigned counters as Nat.
-/

/-- PlusStatus return type, declared in PlusConfigure.h (not in src/):
a binary success / failure status. -/
inductive PlusStatus where
  | PLUS_FAIL
  | PLUS_SUCCESS
deriving DecidableEq, Repr

export PlusStatus (PLUS_FAIL PLUS_SUCCESS)

/-- Error taxonomy of spec.md section 7, used for the spec-modelled
operations (the C++ code reports these through PlusStatus plus logging). -/
inductive TrackerError where
  | InvalidArgument
  | OutOfRange
  | NotSupported
  | HardwareFailure
deriving DecidableEq, Repr

/-- Flags for tool LEDs, from vtkTracker.h lines 30-34. -/
def TR_LED_OFF : Int := 0

/-- LED on flag, vtkTracker.h line 32. -/
def TR_LED_ON : Int := 1

/-- LED flash flag, vtkTracker.h line 33. -/
def TR_LED_FLASH : Int := 2

/-- Tracker tool types, from vtkTracker.h lines 37-45. -/
inductive TRACKER_TOOL_TYPE where
  | TRACKER_TOOL_NONE
  | TRACKER_TOOL_REFERENCE
  | TRACKER_TOOL_PROBE
  | TRACKER_TOOL_STYLUS
  | TRACKER_TOOL_NEEDLE
  | TRACKER_TOOL_GENERAL
deriving DecidableEq, Repr

/-- Integer value of each TRACKER_TOOL_TYPE enumerator as assigned in
vtkTracker.h lines 37-45 (TRACKER_TOOL_NONE = 0, the rest consecutive). -/
def toolTypeValue : TRACKER_TOOL_TYPE → Int
  | .TRACKER_TOOL_NONE => 0
  | .TRACKER_TOOL_REFERENCE => 1
  | .TRACKER_TOOL_PROBE => 2
  | .TRACKER_TOOL_STYLUS => 3
  | .TRACKER_TOOL_NEEDLE => 4
  | .TRACKER_TOOL_GENERAL => 5

/-- A vtkMatrix4x4 value: 16 entries, row major.  Element values are
modelled as rationals. -/
abbrev Matrix4x4 := List ℚ

/-- One time-stamped observation handed to a SampleStore
(spec.md section 3, Sample): optional pose (null pose is valid), raw
tracker status code, frame number, timestamp and the raw-versus-filtered
flag.  TrackerStatus is declared in PlusConfigure.h (not in src/) and is
modelled as its underlying integer code. -/
structure Sample where
  pose : Option Matrix4x4
  status : Nat
  frameNumber : Nat
  timestamp : ℚ
  filtered : Bool
deriving DecidableEq, Repr

/-- One tool slot of the tool table (spec.md section 3, ToolRecord):
name, role, enabled flag, and its SampleStore modelled as the list of
appended samples in order of arrival. -/
structure ToolRecord where
  name : String
  toolType : TRACKER_TOOL_TYPE
  enabled : Bool
  buffer : List Sample
deriving DecidableEq, Repr

/-- Coordinator state of vtkTracker: the tool table (NumberOfTools is its
length, the list index is the port number), the Tracking flag
(vtkTracker.h line 261), the acquisition thread id (vtkTracker.h line 270,
none when no thread exists), and the global UpdateTime advanced by the
update relay (vtkTracker.h line 178). -/
structure CoordState where
  tools : List ToolRecord
  tracking : Bool
  threadId : Option Nat
  updateTime : ℚ
deriving DecidableEq, Repr

/-- NumberOfTools, vtkTracker.h line 255: the size of the tool table. -/
def NumberOfTools (s : CoordState) : Nat := s.tools.length

/-- IsTracking, inline in vtkTracker.h line 86: returns the Tracking flag. -/
def IsTracking (s : CoordState) : Bool := s.tracking

/-- Default InternalUpdate, inline in vtkTracker.h line 169: the body is
just "return PLUS_SUCCESS" and touches no member, so the state is
returned unchanged. -/
def InternalUpdate (s : CoordState) : PlusStatus × CoordState :=
  (PLUS_SUCCESS, s)

/-- Default InternalStartTracking, inline in vtkTracker.h line 239:
"return PLUS_SUCCESS", no member touched. -/
def InternalStartTracking (s : CoordState) : PlusStatus × CoordState :=
  (PLUS_SUCCESS, s)

/-- Default InternalStopTracking, inline in vtkTracker.h line 242:
"return PLUS_SUCCESS", no member touched. -/
def InternalStopTracking (s : CoordState) : PlusStatus × CoordState :=
  (PLUS_SUCCESS, s)

/-- Default InternalBeep, inline in vtkTracker.h line 245:
"return PLUS_SUCCESS", no member touched. -/
def InternalBeep (s : CoordState) (n : Int) : PlusStatus × CoordState :=
  (PLUS_SUCCESS, s)

/-- Default InternalSetToolLED, inline in vtkTracker.h line 248:
"return PLUS_SUCCESS", no member touched. -/
def InternalSetToolLED (s : CoordState) (tool led state : Int) :
    PlusStatus × CoordState :=
  (PLUS_SUCCESS, s)

/-- Modelled from the spec: the body of vtkTracker::Probe is in
vtkTracker.cxx, which is not under src/.  Spec section 4.1: best-effort
connectivity check; does not alter tracking state; default implementation
fails with NotSupported, subclasses override. -/
def Probe (s : CoordState) : Except TrackerError Unit × CoordState :=
  (Except.error TrackerError.NotSupported, s)

/-- Modelled from the spec: the body of vtkTracker::Beep is in
vtkTracker.cxx, which is not under src/.  Spec section 4.1: pass-through
to the device hook InternalBeep.  The C++ declaration (vtkTracker.h line
153) returns void, so only the resulting state is observable; here the
default hook is the base-class InternalBeep. -/
def Beep (s : CoordState) (n : Int) : CoordState :=
  (InternalBeep s n).snd

/-- Modelled from the spec: the body of vtkTracker::SetToolLED is in
vtkTracker.cxx, which is not under src/.  Spec section 4.1: pass-through
to the device hook InternalSetToolLED.  The C++ declaration (vtkTracker.h
line 156) returns void. -/
def SetToolLED (s : CoordState) (tool led state : Int) : CoordState :=
  (InternalSetToolLED s tool led state).snd

/-- Append one sample to the buffer of the tool at the given port,
leaving every other tool untouched. -/
def appendToTool : List ToolRecord → Nat → Sample → List ToolRecord
  | [], _, _ => []
  | t :: ts, 0, smp => { t with buffer := t.buffer ++ [smp] } :: ts
  | t :: ts, p + 1, smp => t :: appendToTool ts p smp

/-- Modelled from the spec: the body of vtkTracker::ToolTimeStampedUpdate
(declared in vtkTracker.h line 227) is in vtkTracker.cxx, which is not
under src/.  Spec section 4.1: validates the port range, failing with
OutOfRange otherwise; constructs a Sample (a null pose is valid, the raw
timestamp gives an unfiltered sample), forwards it to the SampleStore of
that tool, and advances the global UpdateTime to the greater of its
current value and the raw timestamp. -/
def ToolTimeStampedUpdate (s : CoordState) (tool : Int)
    (matrix : Option Matrix4x4) (status : Nat) (frameNumber : Nat)
    (unfilteredtimestamp : ℚ) : Except TrackerError Unit × CoordState :=
  if 0 ≤ tool ∧ tool < (s.tools.length : Int) then
    (Except.ok (),
      { s with
        tools := appendToTool s.tools tool.toNat
          { pose := matrix, status := status, frameNumber := frameNumber,
            timestamp := unfilteredtimestamp, filtered := false },
        updateTime := max s.updateTime unfilteredtimestamp })
  else
    (Except.error TrackerError.OutOfRange, s)

/-- Argument bundle of one ToolTimeStampedUpdate call, used to state
properties of call sequences. -/
structure UpdateCall where
  tool : Int
  matrix : Option Matrix4x4
  status : Nat
  frameNumber : Nat
  unfilteredtimestamp : ℚ
deriving DecidableEq, Repr

/-- Apply one bundled ToolTimeStampedUpdate call to a state. -/
def applyUpdate (s : CoordState) (c : UpdateCall) :
    Except TrackerError Unit × CoordState :=
  ToolTimeStampedUpdate s c.tool c.matrix c.status c.frameNumber
    c.unfilteredtimestamp

/-- Apply a sequence of ToolTimeStampedUpdate calls left to right. -/
def applySeq (s : CoordState) : List UpdateCall → CoordState
  | [] => s
  | c :: cs => applySeq (applyUpdate s c).snd cs

/-- Outcomes of the device-specific hooks of one concrete tracker
(spec section 9 re-expresses the virtual methods as a capability
interface).  Each field is the status that hook returns when called
once by the start or stop path. -/
structure DeviceHooks where
  connect : PlusStatus
  disconnect : PlusStatus
  internalStartTracking : PlusStatus
  internalStopTracking : PlusStatus
deriving DecidableEq, Repr

/-- Modelled from the spec: the body of vtkTracker::StartTracking
(declared in vtkTracker.h line 80) is in vtkTracker.cxx, which is not
under src/.  Spec section 4.1: under the request-serialization lock,
checks IsTracking; if already tracking, returns success idempotently
without side effects.  Otherwise calls Connect, then
InternalStartTracking; on success spawns the AcquisitionThread (its new
thread id is the newThreadId argument) and sets state to Tracking.  On
failure of either hook, leaves state unchanged and reports the error
(all-or-nothing, no partial thread left running). -/
def StartTracking (dev : DeviceHooks) (s : CoordState) (newThreadId : Nat) :
    PlusStatus × CoordState :=
  if IsTracking s then
    (PLUS_SUCCESS, s)
  else if dev.connect = PLUS_FAIL then
    (PLUS_FAIL, s)
  else if dev.internalStartTracking = PLUS_FAIL then
    (PLUS_FAIL, s)
  else
    (PLUS_SUCCESS, { s with tracking := true, threadId := some newThreadId })

/-- Modelled from the spec: the body of vtkTracker::StopTracking
(declared in vtkTracker.h line 83) is in vtkTracker.cxx, which is not
under src/.  Spec section 4.1: under the same lock, if not tracking
returns success idempotently (no thread is signalled or joined);
otherwise signals the AcquisitionThread to exit, joins it, then calls
InternalStopTracking and Disconnect and sets state to Ground. -/
def StopTracking (dev : DeviceHooks) (s : CoordState) :
    PlusStatus × CoordState :=
  if !IsTracking s then
    (PLUS_SUCCESS, s)
  else
    (if dev.internalStopTracking = PLUS_FAIL ∨ dev.disconnect = PLUS_FAIL
      then PLUS_FAIL else PLUS_SUCCESS,
     { s with tracking := false, threadId := none })

/-- True when some tool in the list bears the given name. -/
def nameUsed : List ToolRecord → String → Bool
  | [], _ => false
  | t :: ts, nm => if t.name = nm then true else nameUsed ts nm

/-- True when a tool other than the one at the given port bears the
given name. -/
def nameUsedByOther : List ToolRecord → Nat → String → Bool
  | [], _, _ => false
  | _ :: ts, 0, nm => nameUsed ts nm
  | t :: ts, p + 1, nm => if t.name = nm then true else nameUsedByOther ts p nm

/-- Rename the tool at the given port, leaving every other tool
untouched. -/
def setToolNameAux : List ToolRecord → Nat → String → List ToolRecord
  | [], _, _ => []
  | t :: ts, 0, nm => { t with name := nm } :: ts
  | t :: ts, p + 1, nm => t :: setToolNameAux ts p nm

/-- Modelled from the spec: the body of vtkTracker::SetToolName (declared
in vtkTracker.h line 233) is in vtkTracker.cxx, which is not under src/.
Spec sections 3 and 8: tool names are unique within a table; renaming a
tool to a name already held by a different tool fails with
InvalidArgument and leaves both names unchanged; the port must be in
range.  The C++ declaration returns void, so the failure is reported
through the error log, modelled here as the Option TrackerError
component. -/
def SetToolName (s : CoordState) (tool : Nat) (name : String) :
    CoordState × Option TrackerError :=
  if tool < s.tools.length then
    if nameUsedByOther s.tools tool name then
      (s, some TrackerError.InvalidArgument)
    else
      ({ s with tools := setToolNameAux s.tools tool name }, none)
  else
    (s, some TrackerError.OutOfRange)

/-- First port whose tool bears the given name, scanning ports in
ascending order from accumulator k; -1 when absent. -/
def findPortByName : List ToolRecord → String → Nat → Int
  | [], _, _ => -1
  | t :: ts, nm, k => if t.name = nm then (k : Int) else findPortByName ts nm (k + 1)

/-- Modelled from the spec: the body of vtkTracker::GetToolPortByName
(declared in vtkTracker.h line 138) is in vtkTracker.cxx, which is not
under src/.  Spec section 4.1: read-only lookup over the tool table,
failing gracefully with a negative sentinel on absent matches; first
match in ascending port order. -/
def GetToolPortByName (s : CoordState) (toolName : String) : Int :=
  findPortByName s.tools toolName 0

/-- Modelled from the spec: the body of
vtkTracker::ConvertTrackerStatusToString (declared in vtkTracker.h line
102) is in vtkTracker.cxx, which is not under src/, and the TrackerStatus
enumeration lives in PlusConfigure.h, also not under src/.  The declared
signature returns std::string with no status channel (the header carries
a TODO that the return value should be PlusStatus), so the function
yields a string for every input; statuses are modelled as integer codes
with the states the spec names (an OK state, Missing, OutOfView) as the
known codes 0, 1, 2 and every other code mapped to a default string. -/
def ConvertTrackerStatusToString (status : Nat) : String :=
  if status = 0 then "OK"
  else if status = 1 then "Missing"
  else if status = 2 then "OutOfView"
  else "Unknown status"

/-- Modelled from the spec: the body of vtkTracker::ConvertStringToToolType
(declared in vtkTracker.h line 105) is in vtkTracker.cxx, which is not
under src/.  Spec sections 3 and 4.1: pure taxonomy conversion over the
role names None, Reference, Probe, Stylus, Needle, General; unknown
inputs fail with InvalidArgument rather than returning a guessed
default. -/
def ConvertStringToToolType (typeString : String) :
    Except TrackerError TRACKER_TOOL_TYPE :=
  if typeString = "None" then Except.ok .TRACKER_TOOL_NONE
  else if typeString = "Reference" then Except.ok .TRACKER_TOOL_REFERENCE
  else if typeString = "Probe" then Except.ok .TRACKER_TOOL_PROBE
  else if typeString = "Stylus" then Except.ok .TRACKER_TOOL_STYLUS
  else if typeString = "Needle" then Except.ok .TRACKER_TOOL_NEEDLE
  else if typeString = "General" then Except.ok .TRACKER_TOOL_GENERAL
  else Except.error TrackerError.InvalidArgument

/-- The six role names accepted by ConvertStringToToolType. -/
def toolTypeNames : List String :=
  ["None", "Reference", "Probe", "Stylus", "Needle", "General"]

/-- Modelled from the spec: the body of vtkTracker::ConvertToolTypeToString
(declared in vtkTracker.h line 108) is in vtkTracker.cxx, which is not
under src/.  Spec section 4.1: pure taxonomy conversion; unknown inputs
fail with InvalidArgument.  The C++ parameter is the enum
TRACKER_TOOL_TYPE, modelled here by its underlying integer value
(vtkTracker.h lines 37-45) so that values outside the enumeration are
representable, as they are for a C++ enum. -/
def ConvertToolTypeToString (type : Int) : Except TrackerError String :=
  if type = 0 then Except.ok "None"
  else if type = 1 then Except.ok "Reference"
  else if type = 2 then Except.ok "Probe"
  else if type = 3 then Except.ok "Stylus"
  else if type = 4 then Except.ok "Needle"
  else if type = 5 then Except.ok "General"
  else Except.error TrackerError.InvalidArgument

/-- State for the WorldCalibrationMatrix accessors: vtkMatrix4x4 objects
are heap-allocated and handled through pointers in VTK, so the heap is a
list of matrix values and a pointer is an index into it; the member
vtkTracker::WorldCalibrationMatrix (vtkTracker.h line 252) is a
vtkMatrix4x4 pointer, hence an optional index. -/
structure WcmState where
  heap : List Matrix4x4
  worldCalibrationMatrix : Option Nat
deriving DecidableEq, Repr

/-- SetWorldCalibrationMatrix, generated by
vtkSetObjectMacro(WorldCalibrationMatrix, vtkMatrix4x4) in vtkTracker.h
line 214.  The VTK macro expands to reference-counted pointer
assignment: if the argument differs from the current member it
unregisters the old object, stores the argument pointer itself and
registers it.  No element of the matrix is copied; the member aliases
the caller object afterwards. -/
def SetWorldCalibrationMatrix (s : WcmState) (ptr : Nat) : WcmState :=
  { s with worldCalibrationMatrix := some ptr }

/-- GetWorldCalibrationMatrix, generated by
vtkGetObjectMacro(WorldCalibrationMatrix, vtkMatrix4x4) in vtkTracker.h
line 216: returns the stored pointer; here, the matrix value it points
to. -/
def GetWorldCalibrationMatrix (s : WcmState) : Option Matrix4x4 :=
  s.worldCalibrationMatrix.bind fun p => s.heap.get? p

/-- The caller mutates one element of a matrix object it holds a pointer
to (vtkMatrix4x4::SetElement on the caller side): the heap cell at ptr
has entry idx set to v. -/
def mutateCallerMatrix (s : WcmState) (ptr idx : Nat) (v : ℚ) : WcmState :=
  { s with heap :=
      match s.heap.get? ptr with
      | some m => s.heap.set ptr (m.set idx v)
      | none => s.heap }

/-- The 4x4 identity matrix, row major. -/
def identityMatrix4x4 : Matrix4x4 :=
  [1, 0, 0, 0, 0, 1, 0, 0, 0, 0, 1, 0, 0, 0, 0, 1]

deriving instance DecidableEq for Except

/-- Example tool for concrete evaluations: port 0, named Reference. -/
def refTool : ToolRecord :=
  { name := "Reference", toolType := .TRACKER_TOOL_REFERENCE,
    enabled := true, buffer := [] }

/-- Example tool for concrete evaluations: port 1, named Probe. -/
def probeTool : ToolRecord :=
  { name := "Probe", toolType := .TRACKER_TOOL_PROBE,
    enabled := true, buffer := [] }

/-- Example coordinator with two tools, not tracking, no thread. -/
def exampleState : CoordState :=
  { tools := [refTool, probeTool], tracking := false, threadId := none,
    updateTime := 0 }

/-- Example coordinator that is tracking with an existing thread. -/
def exampleTracking : CoordState :=
  { exampleState with tracking := true, threadId := some 7 }

/-- Device whose hooks all succeed. -/
def allSuccessHooks : DeviceHooks :=
  { connect := PLUS_SUCCESS, disconnect := PLUS_SUCCESS,
    internalStartTracking := PLUS_SUCCESS,
    internalStopTracking := PLUS_SUCCESS }

/-- Device whose Connect hook reports a hardware failure. -/
def failingConnectHooks : DeviceHooks :=
  { allSuccessHooks with connect := PLUS_FAIL }

/-- Example update call on a valid port with timestamp 5. -/
def exampleCall : UpdateCall :=
  { tool := 0, matrix := some identityMatrix4x4, status := 0,
    frameNumber := 1, unfilteredtimestamp := 5 }

/-- Example update call on a valid port with timestamp 3. -/
def exampleCall2 : UpdateCall :=
  { tool := 1, matrix := none, status := 1, frameNumber := 2,
    unfilteredtimestamp := 3 }
theorem nameUsed_iff (l : List ToolRecord) (nm : String) :
    nameUsed l nm = true ↔ ∃ i t, l.get? i = some t ∧ t.name = nm := by
  induction l with
  | nil => simp [nameUsed]
  | cons t ts ih =>
    by_cases h : t.name = nm
    · constructor
      · intro _
        exact ⟨0, t, by simp, h⟩
      · intro _
        simp [nameUsed, h]
    · have hstep : nameUsed (t :: ts) nm = nameUsed ts nm := by
        simp [nameUsed, h]
      rw [hstep, ih]
      constructor
      · rintro ⟨i, u, hg, hn⟩
        exact ⟨i + 1, u, by simpa using hg, hn⟩
      · rintro ⟨i, u, hg, hn⟩
        cases i with
        | zero =>
          simp at hg
          subst hg
          exact absurd hn h
        | succ j => exact ⟨j, u, by simpa using hg, hn⟩

theorem nameUsedByOther_iff (l : List ToolRecord) (p : Nat) (nm : String) :
    nameUsedByOther l p nm = true ↔
      ∃ i t, l.get? i = some t ∧ i ≠ p ∧ t.name = nm := by
  induction l generalizing p with
  | nil => simp [nameUsedByOther]
  | cons t ts ih =>
    cases p with
    | zero =>
      have hstep : nameUsedByOther (t :: ts) 0 nm = nameUsed ts nm := by
        simp [nameUsedByOther]
      rw [hstep, nameUsed_iff]
      constructor
      · rintro ⟨i, u, hg, hn⟩
        exact ⟨i + 1, u, by simpa using hg, by omega, hn⟩
      · rintro ⟨i, u, hg, hip, hn⟩
        cases i with
        | zero => exact absurd rfl hip
        | succ j => exact ⟨j, u, by simpa using hg, hn⟩
    | succ q =>
      by_cases h : t.name = nm
      · constructor
        · intro _
          exact ⟨0, t, by simp, by omega, h⟩
        · intro _
          simp [nameUsedByOther, h]
      · have hstep : nameUsedByOther (t :: ts) (q + 1) nm
            = nameUsedByOther ts q nm := by
          simp [nameUsedByOther, h]
        rw [hstep, ih]
        constructor
        · rintro ⟨i, u, hg, hiq, hn⟩
          exact ⟨i + 1, u, by simpa using hg, by omega, hn⟩
        · rintro ⟨i, u, hg, hip, hn⟩
          cases i with
          | zero =>
            simp at hg
            subst hg
            exact absurd hn h
          | succ j => exact ⟨j, u, by simpa using hg, by omega, hn⟩

theorem findPort_setToolNameAux (l : List ToolRecord) (p : Nat) (nm : String)
    (k : Nat) (hp : p < l.length)
    (hpre : ∀ i t, i < p → l.get? i = some t → t.name ≠ nm) :
    findPortByName (setToolNameAux l p nm) nm k = ((k + p : Nat) : Int) := by
  induction l generalizing p k with
  | nil => simp at hp
  | cons t ts ih =>
    cases p with
    | zero => simp [setToolNameAux, findPortByName]
    | succ q =>
      have hne : t.name ≠ nm := hpre 0 t (Nat.succ_pos q) (by simp)
      have hrec := ih q (k + 1) (by simpa using hp)
        (fun i u hi hg => hpre (i + 1) u (by omega) (by simpa using hg))
      have hstep : findPortByName (setToolNameAux (t :: ts) (q + 1) nm) nm k
          = findPortByName (setToolNameAux ts q nm) nm (k + 1) := by
        simp [setToolNameAux, findPortByName, hne]
      rw [hstep, hrec]
      omega

theorem updateTime_le_applyUpdate (s : CoordState) (c : UpdateCall) :
    s.updateTime ≤ (applyUpdate s c).snd.updateTime := by
  by_cases hc : 0 ≤ c.tool ∧ c.tool < (s.tools.length : Int)
  · simp [applyUpdate, ToolTimeStampedUpdate, hc, le_max_left]
  · simp [applyUpdate, ToolTimeStampedUpdate, hc]

/-- C1: For every port argument outside the range [0, NumberOfTools),
ToolTimeStampedUpdate fails with OutOfRange and leaves the whole state —
in particular the SampleStore of every tool — unchanged: no sample is
appended to any buffer. -/
theorem C1_toolTimeStampedUpdate_out_of_range (s : CoordState) (tool : Int)
    (matrix : Option Matrix4x4) (status frameNumber : Nat)
    (unfilteredtimestamp : ℚ)
    (h : tool < 0 ∨ (NumberOfTools s : Int) ≤ tool) :
    ToolTimeStampedUpdate s tool matrix status frameNumber
        unfilteredtimestamp = (Except.error TrackerError.OutOfRange, s) := by
  have hc : ¬ (0 ≤ tool ∧ tool < (s.tools.length : Int)) := by
    simp only [NumberOfTools] at h
    omega
  simp [ToolTimeStampedUpdate, hc]

/-- Witness for C1: calling the relay with port 2 on a two-tool
coordinator fails with OutOfRange and returns the state unchanged. -/
theorem C1_witness :
    ((2 : Int) < 0 ∨ (NumberOfTools exampleState : Int) ≤ 2) ∧
    ToolTimeStampedUpdate exampleState 2 none 0 1 5 =
      (Except.error TrackerError.OutOfRange, exampleState) :=
  ⟨Or.inr (by decide),
   C1_toolTimeStampedUpdate_out_of_range exampleState 2 none 0 1 5
     (Or.inr (by decide))⟩

/-- C2: every successful ToolTimeStampedUpdate call sets the global
UpdateTime to the greater of its current value and the raw timestamp of
the call, and across any sequence of relay calls UpdateTime is
monotonically non-decreasing. -/
theorem C2_updateTime_monotone :
    (∀ (s : CoordState) (c : UpdateCall),
      (applyUpdate s c).fst = Except.ok () →
      (applyUpdate s c).snd.updateTime =
        max s.updateTime c.unfilteredtimestamp) ∧
    (∀ (s : CoordState) (calls : List UpdateCall),
      s.updateTime ≤ (applySeq s calls).updateTime) := by
  constructor
  · intro s c h
    by_cases hc : 0 ≤ c.tool ∧ c.tool < (s.tools.length : Int)
    · simp [applyUpdate, ToolTimeStampedUpdate, hc]
    · simp [applyUpdate, ToolTimeStampedUpdate, hc] at h
  · intro s calls
    induction calls generalizing s with
    | nil => simp [applySeq]
    | cons c cs ih =>
      calc s.updateTime ≤ (applyUpdate s c).snd.updateTime :=
            updateTime_le_applyUpdate s c
        _ ≤ (applySeq (applyUpdate s c).snd cs).updateTime :=
            ih (applyUpdate s c).snd
        _ = (applySeq s (c :: cs)).updateTime := by simp [applySeq]

/-- Witness for C2: a successful call with timestamp 5 on a coordinator
at UpdateTime 0 sets UpdateTime to max 0 5, and a two-call sequence never
decreases UpdateTime. -/
theorem C2_witness :
    (applyUpdate exampleState exampleCall).fst = Except.ok () ∧
    (applyUpdate exampleState exampleCall).snd.updateTime =
      max exampleState.updateTime exampleCall.unfilteredtimestamp ∧
    exampleState.updateTime ≤
      (applySeq exampleState [exampleCall, exampleCall2]).updateTime :=
  ⟨by decide,
   C2_updateTime_monotone.1 exampleState exampleCall (by decide),
   C2_updateTime_monotone.2 exampleState [exampleCall, exampleCall2]⟩

/-- C3: StartTracking is idempotent: when the coordinator is already
tracking, a further StartTracking call returns success and leaves the
state — including the thread id, so no second acquisition thread is
spawned — completely unchanged. -/
theorem C3_startTracking_idempotent (dev : DeviceHooks) (s : CoordState)
    (newThreadId : Nat) (h : IsTracking s = true) :
    StartTracking dev s newThreadId = (PLUS_SUCCESS, s) := by
  simp [StartTracking, h]

/-- Witness for C3: starting an already-tracking coordinator succeeds and
changes nothing. -/
theorem C3_witness :
    IsTracking exampleTracking = true ∧
    StartTracking allSuccessHooks exampleTracking 9 =
      (PLUS_SUCCESS, exampleTracking) :=
  ⟨by decide,
   C3_startTracking_idempotent allSuccessHooks exampleTracking 9 (by decide)⟩

/-- C4: StartTracking is all-or-nothing: if Connect or
InternalStartTracking fails, StartTracking reports the failure, the
state is unchanged, IsTracking stays false, and no acquisition thread
exists afterwards. -/
theorem C4_startTracking_all_or_nothing (dev : DeviceHooks) (s : CoordState)
    (newThreadId : Nat) (hnt : IsTracking s = false) (hth : s.threadId = none)
    (hfail : dev.connect = PLUS_FAIL ∨ dev.internalStartTracking = PLUS_FAIL) :
    (StartTracking dev s newThreadId).fst = PLUS_FAIL ∧
    (StartTracking dev s newThreadId).snd = s ∧
    IsTracking (StartTracking dev s newThreadId).snd = false ∧
    (StartTracking dev s newThreadId).snd.threadId = none := by
  by_cases hc : dev.connect = PLUS_FAIL
  · simp [StartTracking, hnt, hc, hth]
  · have hf : dev.internalStartTracking = PLUS_FAIL := by tauto
    simp [StartTracking, hnt, hc, hf, hth]

/-- Witness for C4: a failing Connect hook makes StartTracking fail and
leaves the untracking, threadless coordinator untouched. -/
theorem C4_witness :
    IsTracking exampleState = false ∧ exampleState.threadId = none ∧
    failingConnectHooks.connect = PLUS_FAIL ∧
    ((StartTracking failingConnectHooks exampleState 9).fst = PLUS_FAIL ∧
     (StartTracking failingConnectHooks exampleState 9).snd = exampleState ∧
     IsTracking (StartTracking failingConnectHooks exampleState 9).snd = false ∧
     (StartTracking failingConnectHooks exampleState 9).snd.threadId = none) :=
  ⟨by decide, by decide, by decide,
   C4_startTracking_all_or_nothing failingConnectHooks exampleState 9
     (by decide) (by decide) (Or.inl (by decide))⟩

/-- C5: StopTracking on a coordinator that is not tracking returns
success and performs no side effects; in this model the idempotent
branch touches no thread at all (nothing is signalled or joined), which
is how the non-blocking guarantee shows up in a sequential embedding. -/
theorem C5_stopTracking_idempotent (dev : DeviceHooks) (s : CoordState)
    (h : IsTracking s = false) :
    StopTracking dev s = (PLUS_SUCCESS, s) := by
  simp [StopTracking, h]

/-- Witness for C5: stopping a non-tracking coordinator succeeds and
changes nothing, even with hooks that would fail if called. -/
theorem C5_witness :
    IsTracking exampleState = false ∧
    StopTracking failingConnectHooks exampleState =
      (PLUS_SUCCESS, exampleState) :=
  ⟨by decide,
   C5_stopTracking_idempotent failingConnectHooks exampleState (by decide)⟩

/-- C6 counterexample: the claim says the default InternalBeep and
InternalSetToolLED fail with NotSupported and never silently succeed,
but the bodies inline in vtkTracker.h lines 245 and 248 return
PLUS_SUCCESS; at the concrete inputs below both defaults succeed, so
neither fails. -/
theorem C6_counterexample :
    InternalBeep exampleState 5 = (PLUS_SUCCESS, exampleState) ∧
    InternalSetToolLED exampleState 0 0 TR_LED_ON =
      (PLUS_SUCCESS, exampleState) ∧
    (InternalBeep exampleState 5).fst ≠ PLUS_FAIL ∧
    (InternalSetToolLED exampleState 0 0 TR_LED_ON).fst ≠ PLUS_FAIL := by
  decide

/-- C6 amended: the default InternalBeep and InternalSetToolLED return
PLUS_SUCCESS with no side effects, so Beep and SetToolLED (which return
void and pass through to the hooks) silently succeed on devices that do
not override them; only the default Probe fails with NotSupported
without side effects. -/
theorem C6_default_optional_hooks (s : CoordState) (n tool led state : Int) :
    InternalBeep s n = (PLUS_SUCCESS, s) ∧
    InternalSetToolLED s tool led state = (PLUS_SUCCESS, s) ∧
    Beep s n = s ∧
    SetToolLED s tool led state = s ∧
    Probe s = (Except.error TrackerError.NotSupported, s) :=
  ⟨rfl, rfl, rfl, rfl, rfl⟩

/-- C7 counterexample: the claim says every conversion fails with
InvalidArgument on inputs outside the known enumeration, but
ConvertTrackerStatusToString is declared in vtkTracker.h line 102 to
return std::string with no status channel (the header carries a TODO to
that effect), so at the unknown status code 99 it returns a default
string — the same guessed default as at the different unknown code
100 — instead of failing. -/
theorem C7_counterexample :
    ConvertTrackerStatusToString 99 = "Unknown status" ∧
    ConvertTrackerStatusToString 99 = ConvertTrackerStatusToString 100 := by
  decide

/-- C7 amended: ConvertStringToToolType and ConvertToolTypeToString are
pure functions of their argument alone and fail with InvalidArgument on
every input outside the known enumeration; ConvertTrackerStatusToString
is likewise pure but, per its declared signature, maps every unknown
status code to a default string instead of failing. -/
theorem C7_conversions (str : String) (ty : Int) (st : Nat)
    (hstr : str ∉ toolTypeNames) (hty : ty < 0 ∨ 5 < ty) (hst : 2 < st) :
    ConvertStringToToolType str = Except.error TrackerError.InvalidArgument ∧
    ConvertToolTypeToString ty = Except.error TrackerError.InvalidArgument ∧
    ConvertTrackerStatusToString st = "Unknown status" := by
  refine ⟨?_, ?_, ?_⟩
  · simp only [toolTypeNames, List.mem_cons, List.mem_singleton, not_or] at hstr
    obtain ⟨h1, h2, h3, h4, h5, h6⟩ := hstr
    simp [ConvertStringToToolType, h1, h2, h3, h4, h5, h6]
  · have h0 : ty ≠ 0 := by omega
    have h1 : ty ≠ 1 := by omega
    have h2 : ty ≠ 2 := by omega
    have h3 : ty ≠ 3 := by omega
    have h4 : ty ≠ 4 := by omega
    have h5 : ty ≠ 5 := by omega
    simp [ConvertToolTypeToString, h0, h1, h2, h3, h4, h5]
  · have h0 : st ≠ 0 := by omega
    have h1 : st ≠ 1 := by omega
    have h2 : st ≠ 2 := by omega
    simp [ConvertTrackerStatusToString, h0, h1, h2]

/-- Witness for C7 amended: the unknown name Bogus, the out-of-range
enum value 99 and the unknown status code 99. -/
theorem C7_witness :
    "Bogus" ∉ toolTypeNames ∧ ((99 : Int) < 0 ∨ (5 : Int) < 99) ∧ 2 < 99 ∧
    (ConvertStringToToolType "Bogus" =
        Except.error TrackerError.InvalidArgument ∧
      ConvertToolTypeToString 99 =
        Except.error TrackerError.InvalidArgument ∧
      ConvertTrackerStatusToString 99 = "Unknown status") :=
  ⟨by decide, Or.inr (by decide), by decide,
   C7_conversions "Bogus" 99 99 (by decide) (Or.inr (by decide)) (by decide)⟩

/-- C8: vtkSetObjectMacro stores the caller pointer instead of copying
the matrix, although the comment above it in vtkTracker.h lines 207-213
promises value semantics.  Concretely: starting from a heap holding one
identity matrix, after SetWorldCalibrationMatrix to it the caller sets
element 0 of its own matrix object to 5, and GetWorldCalibrationMatrix
now returns the mutated matrix, no longer the identity that was set. -/
theorem C8_worldCalibrationMatrix_aliased :
    GetWorldCalibrationMatrix
        (mutateCallerMatrix
          (SetWorldCalibrationMatrix
            { heap := [identityMatrix4x4], worldCalibrationMatrix := none }
            0) 0 0 5) =
      some (identityMatrix4x4.set 0 5) ∧
    GetWorldCalibrationMatrix
        (mutateCallerMatrix
          (SetWorldCalibrationMatrix
            { heap := [identityMatrix4x4], worldCalibrationMatrix := none }
            0) 0 0 5) ≠
      some identityMatrix4x4 := by
  decide

/-- C9: for a valid port p and a name held by no other tool, SetToolName
succeeds and GetToolPortByName finds p afterwards; renaming to a name
already held by a different tool fails with InvalidArgument and returns
the state — hence both names — unchanged. -/
theorem C9_setToolName_lookup (s : CoordState) (p : Nat) (name : String)
    (hp : p < s.tools.length) :
    ((∀ i t, s.tools.get? i = some t → i ≠ p → t.name ≠ name) →
      (SetToolName s p name).snd = none ∧
      GetToolPortByName (SetToolName s p name).fst name = (p : Int)) ∧
    ((∃ i t, s.tools.get? i = some t ∧ i ≠ p ∧ t.name = name) →
      SetToolName s p name = (s, some TrackerError.InvalidArgument)) := by
  constructor
  · intro huniq
    have hno : nameUsedByOther s.tools p name = false := by
      cases hb : nameUsedByOther s.tools p name with
      | false => rfl
      | true =>
        obtain ⟨i, t, hg, hip, hn⟩ := (nameUsedByOther_iff _ _ _).1 hb
        exact absurd hn (huniq i t hg hip)
    refine ⟨by simp [SetToolName, hp, hno], ?_⟩
    have hfind := findPort_setToolNameAux s.tools p name 0 hp
      (fun i t hi hg => huniq i t hg (by omega))
    simp [SetToolName, hp, hno, GetToolPortByName]
    simpa using hfind
  · rintro ⟨i, t, hg, hip, hn⟩
    have hyes : nameUsedByOther s.tools p name = true :=
      (nameUsedByOther_iff _ _ _).2 ⟨i, t, hg, hip, hn⟩
    simp [SetToolName, hp, hyes]

/-- Witness for C9: renaming port 1 to the fresh name Needle succeeds
and is then found at port 1; renaming port 1 to Reference, already held
by port 0, fails with InvalidArgument and leaves the state unchanged. -/
theorem C9_witness :
    1 < exampleState.tools.length ∧
    ((SetToolName exampleState 1 "Needle").snd = none ∧
      GetToolPortByName (SetToolName exampleState 1 "Needle").fst "Needle" =
        (1 : Int)) ∧
    SetToolName exampleState 1 "Reference" =
      (exampleState, some TrackerError.InvalidArgument) :=
  ⟨by decide,
   (C9_setToolName_lookup exampleState 1 "Needle" (by decide)).1
     (by
       intro i t hg hip
       cases i with
       | zero =>
         have h0 : exampleState.tools.get? 0 = some refTool := by decide
         rw [h0] at hg
         rw [(Option.some.inj hg).symm]
         decide
       | succ j =>
         cases j with
         | zero => exact absurd rfl hip
         | succ m =>
           have h2 : exampleState.tools.get? (m + 2) = none := by
             simp [exampleState]
           rw [h2] at hg
           exact Option.noConfusion hg),
   (C9_setToolName_lookup exampleState 1 "Reference" (by decide)).2
     ⟨0, refTool, by decide, by decide, by decide⟩⟩

/-- C10: the base-class defaults of the required device hooks
InternalStartTracking, InternalStopTracking and InternalUpdate return
PLUS_SUCCESS for every coordinator state and leave the state unchanged;
in particular the default InternalUpdate appends no sample to any tool
buffer. -/
theorem C10_default_required_hooks (s : CoordState) :
    InternalStartTracking s = (PLUS_SUCCESS, s) ∧
    InternalStopTracking s = (PLUS_SUCCESS, s) ∧
    InternalUpdate s = (PLUS_SUCCESS, s) ∧
    (InternalUpdate s).snd.tools = s.tools :=
  ⟨rfl, rfl, rfl, rfl⟩
